import Mathlib

/-!
Shallow embedding of the team-capacity-planner core (src/analyzer.py and
src/predictor.py, with the data classes they consume from
src/integrations/jira.py, github.py and calendar.py).

Conventions of the embedding:
- Python floats are modelled as rationals.
- Python datetimes and dates are modelled as integers (ordinal days, the
  value of date.toordinal; day 1 is a Monday); a function that reads the
  current clock receives it as an explicit parameter (now, today).
- Python Optional values are modelled as Option; Python truthiness of an
  optional string treats both None and the empty string as falsy.
- Lowercasing (str.lower) is modelled per character with Char.toLower,
  which agrees with Python on the ASCII strings the planner compares.
- The source computes two square roots (math.sqrt in
  calculate_velocity_stats, ** 0.5 in workload_variance).  A square root
  of a rational is generally irrational, so each root is passed to the
  embedded functions as an explicit parameter (sd), constrained in the
  theorems by 0 ≤ sd and sd ^ 2 = the embedded radicand.
- Methods that mutate nothing but return fresh lists are embedded in
  state-passing style where the claim is about the absence of mutation:
  the result pairs the returned list with the object state after the call.
-/

/-- Helper: does the first character list start with the second one.
Models the anchored step of the Python substring test. -/
def listStartsWith : List Char → List Char → Bool
  | _, [] => true
  | [], _ :: _ => false
  | a :: as, b :: bs => a == b && listStartsWith as bs

/-- Helper: does the first character list contain the second one as a
contiguous run. -/
def listContainsSeq : List Char → List Char → Bool
  | hay, needle =>
    match hay with
    | [] => needle.isEmpty
    | _ :: rest => listStartsWith hay needle || listContainsSeq rest needle

/-- Python `needle in hay` on strings. -/
def strContains (hay needle : String) : Bool :=
  listContainsSeq hay.data needle.data

/-- Python str.lower, per character (ASCII-faithful). -/
def strLower (s : String) : String := ⟨s.data.map Char.toLower⟩

/-- JiraTicket (integrations/jira.py, lines 25-39).  The fields issue_type,
priority, sprint_id, sprint_name, created and updated are never read by the
analyzer or the predictor and are omitted. -/
structure JiraTicket where
  key : String
  summary : String
  status : String
  assignee : Option String
  story_points : Option ℚ
  labels : List String
deriving DecidableEq

/-- JiraTicket.is_done (jira.py line 42). -/
def JiraTicket.is_done (t : JiraTicket) : Bool :=
  ["done", "closed", "resolved"].contains (strLower t.status)

/-- JiraTicket.is_in_progress (jira.py line 46). -/
def JiraTicket.is_in_progress (t : JiraTicket) : Bool :=
  strContains (strLower t.status) "progress"

/-- JiraTicket.is_blocked (jira.py line 50). -/
def JiraTicket.is_blocked (t : JiraTicket) : Bool :=
  strContains (strLower t.status) "blocked" || (t.labels.map strLower).contains "blocked"

/-- Python truthiness of ticket.assignee: None and the empty string are falsy. -/
def JiraTicket.has_assignee (t : JiraTicket) : Bool :=
  match t.assignee with
  | none => false
  | some a => !a.isEmpty

/-- Sprint (jira.py lines 54-63).  Dates are ordinal days. -/
structure Sprint where
  id : ℤ
  name : String
  state : String
  start_date : Option ℤ
  end_date : Option ℤ
deriving DecidableEq

/-- Sprint.days_remaining (jira.py lines 68-72); now is the current day. -/
def Sprint.days_remaining (s : Sprint) (now : ℤ) : ℤ :=
  match s.end_date with
  | none => 0
  | some e => max 0 (e - now)

/-- VelocityStats (predictor.py lines 24-33).  The std_dev field holds the
square root computed by math.sqrt in the source. -/
structure VelocityStats where
  average : ℚ
  median : ℚ
  std_dev : ℚ
  min : ℚ
  max : ℚ
  trend : String
  sprints_analyzed : ℕ
deriving DecidableEq

/-- Population variance of the completed-points history, the radicand of
the math.sqrt call at predictor.py line 214 (variance, line 213). -/
def velocityVariance (points : List ℚ) : ℚ :=
  if points = [] then 0
  else
    let n : ℚ := points.length
    let average := points.sum / n
    (points.map (fun p => (p - average) ^ 2)).sum / n

/-- SprintPredictor.calculate_velocity_stats (predictor.py lines 188-238).
The velocity_history list of dicts is modelled by the list of its
completed_points values, the only key the source reads.  sd is the value of
math.sqrt(variance); see the file header. -/
def calculate_velocity_stats (velocity_history : List ℚ) (sd : ℚ) : VelocityStats :=
  if velocity_history = [] then
    { average := 0, median := 0, std_dev := 0, min := 0, max := 0
      trend := "unknown", sprints_analyzed := 0 }
  else
    let points := velocity_history
    let n := points.length
    let average := points.sum / (n : ℚ)
    let sorted_points := points.insertionSort (fun a b => a ≤ b)
    let median :=
      if n % 2 = 1 then sorted_points.getD (n / 2) 0
      else (sorted_points.getD (n / 2 - 1) 0 + sorted_points.getD (n / 2) 0) / 2
    let trend :=
      if 4 ≤ n then
        let first_half_avg := (points.take (n / 2)).sum / ((n / 2 : ℕ) : ℚ)
        let second_half_avg := (points.drop (n / 2)).sum / (((n - n / 2 : ℕ)) : ℚ)
        if second_half_avg > first_half_avg * (11 / 10) then "improving"
        else if second_half_avg < first_half_avg * (9 / 10) then "declining"
        else "stable"
      else "unknown"
    { average := average, median := median, std_dev := sd
      min := (match points with | [] => 0 | p :: ps => ps.foldl Min.min p)
      max := (match points with | [] => 0 | p :: ps => ps.foldl Max.max p)
      trend := trend, sprints_analyzed := n }

/-- RiskLevel (predictor.py lines 16-21). -/
inductive RiskLevel
  | low
  | medium
  | high
  | critical
deriving DecidableEq

/-- TicketRisk (predictor.py lines 42-51).  The to_dict rendering is
omitted. -/
structure TicketRisk where
  ticket_key : String
  ticket_title : String
  story_points : ℚ
  status : String
  risk_score : ℚ
  risk_factors : List String
  recommendation : Option String
deriving DecidableEq

/-- TicketRisk.risk_level (predictor.py lines 53-61). -/
def TicketRisk.risk_level (t : TicketRisk) : RiskLevel :=
  if 80 ≤ t.risk_score then RiskLevel.critical
  else if 60 ≤ t.risk_score then RiskLevel.high
  else if 40 ≤ t.risk_score then RiskLevel.medium
  else RiskLevel.low

/-- SprintPrediction (predictor.py lines 76-102).  The predicted_at
timestamp and the to_dict / on_track / completion_percentage display
helpers are omitted. -/
structure SprintPrediction where
  sprint_name : String
  sprint_id : ℤ
  total_points : ℚ
  completed_points : ℚ
  in_progress_points : ℚ
  remaining_points : ℚ
  days_remaining : ℤ
  days_elapsed : ℤ
  completion_probability : ℚ
  predicted_completion_points : ℚ
  predicted_remaining_points : ℚ
  risk_level : RiskLevel
  at_risk_tickets : List TicketRisk
  recommendations : List String
deriving DecidableEq

/-- WhatIfScenario (predictor.py lines 145-151). -/
structure WhatIfScenario where
  scenario_name : String
  original_prediction : SprintPrediction
  modified_prediction : SprintPrediction
  impact_description : String
deriving DecidableEq

/-- WhatIfScenario.probability_change (predictor.py lines 153-155). -/
def WhatIfScenario.probability_change (s : WhatIfScenario) : ℚ :=
  s.modified_prediction.completion_probability - s.original_prediction.completion_probability

/-- Accumulated risk score and triggered-rule descriptions of
SprintPredictor.assess_ticket_risk (predictor.py lines 254-283), before the
cap at 100.  The contributions accumulate in source order: not-started
(+40, +20), large ticket (+30 or +15), blocked (+50), missing
assignee (+20). -/
def ticketRawRisk (ticket : JiraTicket) (days_remaining : ℤ) (sprint_progress : ℚ) :
    ℚ × List String :=
  let not_started : Bool := ["to do", "backlog", "open"].contains (strLower ticket.status)
  let risk1 : ℚ × List String :=
    if not_started = true ∧ 1 / 2 < sprint_progress then
      (40, ["Not started, sprint >50% complete"]) else (0, [])
  let risk2 : ℚ × List String :=
    if not_started = true ∧ 3 / 4 < sprint_progress then
      (20, ["Not started, sprint >75% complete"]) else (0, [])
  let risk3 : ℚ × List String :=
    if 5 ≤ ticket.story_points.getD 0 then
      if days_remaining < 3 then
        (30, ["Large ticket (" ++ toString (ticket.story_points.getD 0) ++ " points) with "
              ++ toString days_remaining ++ " days left"])
      else if days_remaining < 5 then (15, ["Large ticket with limited time"])
      else (0, [])
    else (0, [])
  let risk4 : ℚ × List String :=
    if ticket.is_blocked = true then (50, ["Ticket is blocked"]) else (0, [])
  let risk5 : ℚ × List String :=
    if ticket.has_assignee = false then (20, ["No assignee"]) else (0, [])
  (risk1.1 + risk2.1 + risk3.1 + risk4.1 + risk5.1,
   risk1.2 ++ risk2.2 ++ risk3.2 ++ risk4.2 ++ risk5.2)

/-- Recommendation choice of assess_ticket_risk (predictor.py lines
285-295).  The descoping branch of line 292 tests only the statuses
"to do" and "backlog". -/
def ticketRecommendation (ticket : JiraTicket) (days_remaining : ℤ) (sprint_progress : ℚ) :
    Option String :=
  if 60 ≤ (ticketRawRisk ticket days_remaining sprint_progress).1 then
    some (if ticket.is_blocked = true then "Unblock immediately or move to next sprint"
      else if ticket.has_assignee = false then "Assign to team member with capacity"
      else if ["to do", "backlog"].contains (strLower ticket.status) then
        "Consider descoping to next sprint"
      else "Monitor closely, may need descoping")
  else none

/-- SprintPredictor.assess_ticket_risk (predictor.py lines 240-305). -/
def assess_ticket_risk (ticket : JiraTicket) (days_remaining : ℤ) (sprint_progress : ℚ) : TicketRisk :=
  { ticket_key := ticket.key, ticket_title := ticket.summary
    story_points := ticket.story_points.getD 0, status := ticket.status
    risk_score := min 100 (ticketRawRisk ticket days_remaining sprint_progress).1
    risk_factors := (ticketRawRisk ticket days_remaining sprint_progress).2
    recommendation := ticketRecommendation ticket days_remaining sprint_progress }

/-- Point aggregation of predictor.py line 325. -/
def totalPoints (tickets : List JiraTicket) : ℚ :=
  (tickets.map (fun t => t.story_points.getD 0)).sum

/-- Point aggregation of predictor.py line 326. -/
def completedPoints (tickets : List JiraTicket) : ℚ :=
  ((tickets.filter (fun t => t.is_done)).map (fun t => t.story_points.getD 0)).sum

/-- Point aggregation of predictor.py line 327. -/
def inProgressPoints (tickets : List JiraTicket) : ℚ :=
  ((tickets.filter (fun t => t.is_in_progress)).map (fun t => t.story_points.getD 0)).sum

/-- Time aggregation of predictor.py lines 331-338: days elapsed and
sprint progress fraction. -/
def Sprint.elapsed_progress (s : Sprint) (now : ℤ) : ℤ × ℚ :=
  match s.start_date, s.end_date with
  | some sd, some ed =>
    let total_days := ed - sd
    let days_elapsed := total_days - s.days_remaining now
    (days_elapsed, if 0 < total_days then (days_elapsed : ℚ) / (total_days : ℚ) else 0)
  | _, _ => (0, 1 / 2)

/-- Completion forecast of predictor.py lines 343-365, returning the pair
(predicted_completion, completion_probability) before the reporting clamps
of lines 415-416. -/
def completionForecast (velocity_stats : VelocityStats) (completed_points remaining_points total_points : ℚ)
    (days_remaining : ℤ) (sprint_progress : ℚ) : ℚ × ℚ :=
  if 3 ≤ velocity_stats.sprints_analyzed then
    let expected_velocity := velocity_stats.average
    let points_per_day := expected_velocity / 10
    let predicted_completion := completed_points + points_per_day * (days_remaining : ℚ)
    if 0 < velocity_stats.std_dev then
      let z_score := (remaining_points - points_per_day * (days_remaining : ℚ)) / velocity_stats.std_dev
      (predicted_completion, max 0 (min 100 (50 - z_score * 25)))
    else
      (predicted_completion, 50)
  else
    if 0 < sprint_progress then
      let projected_rate := completed_points / sprint_progress
      (projected_rate, if 0 < total_points then min 100 (projected_rate / total_points * 100) else 100)
    else
      (total_points, 50)

/-- Forecast core of SprintPredictor.predict: the values of the internal
predicted_completion and completion_probability variables. -/
def predictCore (sprint : Sprint) (tickets : List JiraTicket) (velocity_history : List ℚ)
    (sd : ℚ) (now : ℤ) : ℚ × ℚ :=
  completionForecast (calculate_velocity_stats velocity_history sd)
    (completedPoints tickets) (totalPoints tickets - completedPoints tickets) (totalPoints tickets)
    (sprint.days_remaining now) (sprint.elapsed_progress now).2

/-- SprintPredictor.predict (predictor.py lines 307-420).  A velocity
history of None is passed as the empty list (the source replaces None by
[]).  The narrative recommendation strings render numbers with toString
where the source uses f-string interpolation. -/
def predict (sprint : Sprint) (tickets : List JiraTicket) (velocity_history : List ℚ)
    (sd : ℚ) (now : ℤ) : SprintPrediction :=
  let total_points := totalPoints tickets
  let completed_points := completedPoints tickets
  let in_progress_points := inProgressPoints tickets
  let remaining_points := total_points - completed_points
  let days_remaining := sprint.days_remaining now
  let days_elapsed := (sprint.elapsed_progress now).1
  let sprint_progress := (sprint.elapsed_progress now).2
  let velocity_stats := calculate_velocity_stats velocity_history sd
  let core := predictCore sprint tickets velocity_history sd now
  let predicted_completion := core.1
  let completion_probability := core.2
  let at_risk_unsorted := ((tickets.filter (fun t => t.is_done = false)).map
      (fun t => assess_ticket_risk t days_remaining sprint_progress)).filter
      (fun r => 40 ≤ r.risk_score)
  let at_risk_tickets := at_risk_unsorted.insertionSort (fun a b => b.risk_score ≤ a.risk_score)
  let risk_level :=
    if completion_probability < 50 ∨ at_risk_tickets.any (fun t => t.risk_level == RiskLevel.critical) then
      RiskLevel.critical
    else if completion_probability < 70 ∨
        2 ≤ (at_risk_tickets.filter (fun t => t.risk_level == RiskLevel.high || t.risk_level == RiskLevel.critical)).length then
      RiskLevel.high
    else if completion_probability < 85 then RiskLevel.medium
    else RiskLevel.low
  let blocked_list := at_risk_tickets.filter
      (fun t => strContains (strLower (String.intercalate " " t.risk_factors)) "blocked")
  let unassigned_list := at_risk_tickets.filter (fun t => t.risk_factors.contains "No assignee")
  let recommendations :=
    (if risk_level == RiskLevel.high || risk_level == RiskLevel.critical then
      (if 0 < at_risk_tickets.length then
        ["Review " ++ toString at_risk_tickets.length ++ " at-risk tickets for descoping"] else [])
      ++ (if 0 < blocked_list.length then
        ["Unblock " ++ toString blocked_list.length ++ " blocked tickets immediately"] else [])
      ++ (if 0 < unassigned_list.length then
        ["Assign " ++ toString unassigned_list.length ++ " unassigned tickets"] else [])
     else [])
    ++ (if velocity_stats.trend == "declining" then
        ["Team velocity is declining - investigate root cause"] else [])
  { sprint_name := sprint.name, sprint_id := sprint.id
    total_points := total_points, completed_points := completed_points
    in_progress_points := in_progress_points, remaining_points := remaining_points
    days_remaining := days_remaining, days_elapsed := days_elapsed
    completion_probability := completion_probability
    predicted_completion_points := min predicted_completion total_points
    predicted_remaining_points := max 0 (total_points - predicted_completion)
    risk_level := risk_level, at_risk_tickets := at_risk_tickets.take 5
    recommendations := recommendations }

/-- Assignee test of predictor.py line 441: the ticket has a truthy
assignee containing the person name case-insensitively. -/
def nameMatches (person_name : String) (t : JiraTicket) : Bool :=
  match t.assignee with
  | none => false
  | some a => !a.isEmpty && strContains (strLower a) (strLower person_name)

/-- Per-ticket replacement of the remove-person scenario (predictor.py
lines 444-458): a not-yet-done ticket of the person is replaced by a copy
with the assignee cleared and a blocked label appended; every other ticket
passes through unchanged. -/
def removePersonModify (person_tickets : List JiraTicket) (ticket : JiraTicket) : JiraTicket :=
  if ticket ∈ person_tickets ∧ ticket.is_done = false then
    { key := ticket.key, summary := ticket.summary, status := ticket.status
      assignee := none, story_points := ticket.story_points
      labels := ticket.labels ++ ["blocked"] }
  else ticket

/-- SprintPredictor.what_if_remove_person (predictor.py lines 422-480).
The impact narrative renders numbers with toString where the source rounds
floats for display. -/
def what_if_remove_person (original : SprintPrediction) (person_name : String)
    (tickets : List JiraTicket) (sprint : Sprint) (velocity_history : List ℚ)
    (sd : ℚ) (now : ℤ) : WhatIfScenario :=
  let person_tickets := tickets.filter (fun t => nameMatches person_name t)
  let modified_tickets := tickets.map (removePersonModify person_tickets)
  let modified_prediction := predict sprint modified_tickets velocity_history sd now
  let points_affected :=
    ((person_tickets.filter (fun t => t.is_done = false)).map (fun t => t.story_points.getD 0)).sum
  let impact_description :=
    "Removing " ++ person_name ++ " affects " ++ toString person_tickets.length
    ++ " tickets (" ++ toString points_affected ++ " points). Sprint completion drops from "
    ++ toString original.completion_probability ++ "% to "
    ++ toString modified_prediction.completion_probability ++ "%."
    ++ (if 0 < points_affected then " Recommend reassigning to team members with capacity." else "")
  { scenario_name := "Remove " ++ person_name, original_prediction := original
    modified_prediction := modified_prediction, impact_description := impact_description }

/-- GitHubUser (integrations/github.py lines 15-23). -/
structure GitHubUser where
  login : String
  name : Option String
  open_prs : ℤ
  pending_reviews : ℤ
  assigned_issues : ℤ
  recent_commits : ℤ
deriving DecidableEq

/-- PTOPeriod (integrations/calendar.py lines 46-52).  Dates are ordinal
days; day 1 is a Monday, so the weekday index of day d is (d - 1) mod 7. -/
structure PTOPeriod where
  user : String
  start_date : ℤ
  end_date : ℤ
  reason : String
deriving DecidableEq

/-- PTOPeriod.days (calendar.py lines 54-63): weekday count of the
inclusive date range. -/
def PTOPeriod.days (p : PTOPeriod) : ℕ :=
  (List.range (p.end_date - p.start_date + 1).toNat).countP
    (fun i => decide ((p.start_date + i - 1) % 7 < 5))

/-- UserAvailability (calendar.py lines 70-77). -/
structure UserAvailability where
  user : String
  email : String
  pto_periods : List PTOPeriod
  meeting_hours_this_week : ℚ
  meeting_hours_next_week : ℚ
deriving DecidableEq

/-- UserAvailability.next_pto (calendar.py lines 87-92): among periods
ending today or later, the one with the earliest start date (first such on
ties, as Python min). -/
def UserAvailability.next_pto (a : UserAvailability) (today : ℤ) : Option PTOPeriod :=
  match a.pto_periods.filter (fun p => decide (today ≤ p.end_date)) with
  | [] => none
  | p :: rest => some (rest.foldl (fun acc q => if q.start_date < acc.start_date then q else acc) p)

/-- JiraUser (integrations/jira.py lines 85-91). -/
structure JiraUser where
  account_id : String
  display_name : String
  email : Option String
  assigned_tickets : List JiraTicket
deriving DecidableEq

/-- JiraUser.total_story_points (jira.py lines 93-96). -/
def JiraUser.total_story_points (u : JiraUser) : ℚ :=
  (u.assigned_tickets.map (fun t => t.story_points.getD 0)).sum

/-- JiraUser.tickets_in_progress (jira.py lines 98-100). -/
def JiraUser.tickets_in_progress (u : JiraUser) : ℕ :=
  (u.assigned_tickets.filter (fun t => t.is_in_progress)).length

/-- JiraUser.tickets_blocked (jira.py lines 102-104). -/
def JiraUser.tickets_blocked (u : JiraUser) : ℕ :=
  (u.assigned_tickets.filter (fun t => t.is_blocked)).length

/-- WorkloadWeights (analyzer.py lines 22-39): per-signal multipliers and
normalization ceilings. -/
structure WorkloadWeights where
  github_open_prs : ℚ
  github_pending_reviews : ℚ
  github_assigned_issues : ℚ
  github_recent_commits : ℚ
  jira_story_points : ℚ
  jira_in_progress : ℚ
  jira_blocked : ℚ
  meeting_hours : ℚ
  max_open_prs : ℤ
  max_pending_reviews : ℤ
  max_assigned_issues : ℤ
  max_story_points : ℚ
  max_meeting_hours : ℚ
deriving DecidableEq

/-- Default weight configuration of analyzer.py lines 25-39. -/
def defaultWeights : WorkloadWeights :=
  { github_open_prs := 3, github_pending_reviews := 2, github_assigned_issues := 2
    github_recent_commits := 1 / 2, jira_story_points := 1, jira_in_progress := 2
    jira_blocked := 3, meeting_hours := 1 / 2, max_open_prs := 5, max_pending_reviews := 8
    max_assigned_issues := 10, max_story_points := 13, max_meeting_hours := 20 }

/-- WorkloadStatus (analyzer.py lines 15-19). -/
inductive WorkloadStatus
  | healthy
  | at_capacity
  | overloaded
deriving DecidableEq

/-- TeamMemberWorkload (analyzer.py lines 42-66).  The status_emoji and
to_dict display helpers are omitted. -/
structure TeamMemberWorkload where
  name : String
  email : Option String
  github_open_prs : ℤ
  github_pending_reviews : ℤ
  github_assigned_issues : ℤ
  github_recent_commits : ℤ
  jira_story_points : ℚ
  jira_tickets_in_progress : ℕ
  jira_tickets_blocked : ℕ
  meeting_hours_this_week : ℚ
  pto_days_upcoming : ℕ
  next_pto_date : Option ℤ
  workload_score : ℚ
  workload_percentage : ℚ
deriving DecidableEq

/-- TeamMemberWorkload.status (analyzer.py lines 68-75). -/
def TeamMemberWorkload.status (m : TeamMemberWorkload) : WorkloadStatus :=
  if 100 ≤ m.workload_percentage then WorkloadStatus.overloaded
  else if 80 ≤ m.workload_percentage then WorkloadStatus.at_capacity
  else WorkloadStatus.healthy

/-- TeamWorkloadSummary (analyzer.py lines 116-120); calculated_at is an
opaque timestamp. -/
structure TeamWorkloadSummary where
  members : List TeamMemberWorkload
  calculated_at : ℤ
deriving DecidableEq

/-- TeamWorkloadSummary.team_size (analyzer.py lines 122-124). -/
def TeamWorkloadSummary.team_size (s : TeamWorkloadSummary) : ℕ :=
  s.members.length

/-- TeamWorkloadSummary.overloaded_count (analyzer.py lines 126-128). -/
def TeamWorkloadSummary.overloaded_count (s : TeamWorkloadSummary) : ℕ :=
  (s.members.filter (fun m => m.status == WorkloadStatus.overloaded)).length

/-- TeamWorkloadSummary.at_capacity_count (analyzer.py lines 130-132). -/
def TeamWorkloadSummary.at_capacity_count (s : TeamWorkloadSummary) : ℕ :=
  (s.members.filter (fun m => m.status == WorkloadStatus.at_capacity)).length

/-- TeamWorkloadSummary.healthy_count (analyzer.py lines 134-136). -/
def TeamWorkloadSummary.healthy_count (s : TeamWorkloadSummary) : ℕ :=
  (s.members.filter (fun m => m.status == WorkloadStatus.healthy)).length

/-- TeamWorkloadSummary.average_workload (analyzer.py lines 138-142). -/
def TeamWorkloadSummary.average_workload (s : TeamWorkloadSummary) : ℚ :=
  if s.members = [] then 0
  else (s.members.map (fun m => m.workload_percentage)).sum / (s.members.length : ℚ)

/-- Population variance of the member percentages, the radicand of the
** 0.5 at analyzer.py line 152 (variance, line 151), including the
fewer-than-two-members guard of line 147. -/
def TeamWorkloadSummary.workload_variance_sq (s : TeamWorkloadSummary) : ℚ :=
  if s.members.length < 2 then 0
  else (s.members.map (fun m => (m.workload_percentage - s.average_workload) ^ 2)).sum
    / (s.members.length : ℚ)

/-- TeamWorkloadSummary.is_balanced (analyzer.py lines 154-157).  sd is the
value of the workload_variance property, the square root of
workload_variance_sq; see the file header. -/
def TeamWorkloadSummary.is_balanced (s : TeamWorkloadSummary) (sd : ℚ) : Bool :=
  decide (sd < 30)

/-- TeamWorkloadSummary.get_most_overloaded (analyzer.py lines 159-162) in
state-passing style: the returned list and the object state after the call
(Python sorted copies, so the state is returned unchanged). -/
def TeamWorkloadSummary.get_most_overloaded (s : TeamWorkloadSummary) (n : ℕ) :
    List TeamMemberWorkload × TeamWorkloadSummary :=
  ((s.members.insertionSort (fun a b => b.workload_percentage ≤ a.workload_percentage)).take n, s)

/-- TeamWorkloadSummary.get_available_capacity (analyzer.py lines 164-167)
in state-passing style. -/
def TeamWorkloadSummary.get_available_capacity (s : TeamWorkloadSummary) (n : ℕ) :
    List TeamMemberWorkload × TeamWorkloadSummary :=
  ((s.members.insertionSort (fun a b => a.workload_percentage ≤ b.workload_percentage)).take n, s)

/-- WorkloadAnalyzer._calculate_github_score (analyzer.py lines 202-209). -/
def calculate_github_score (w : WorkloadWeights) (user : GitHubUser) : ℚ :=
  (user.open_prs : ℚ) * w.github_open_prs
  + (user.pending_reviews : ℚ) * w.github_pending_reviews
  + (user.assigned_issues : ℚ) * w.github_assigned_issues
  + (user.recent_commits : ℚ) * w.github_recent_commits

/-- WorkloadAnalyzer._calculate_jira_score (analyzer.py lines 211-217). -/
def calculate_jira_score (w : WorkloadWeights) (user : JiraUser) : ℚ :=
  user.total_story_points * w.jira_story_points
  + (user.tickets_in_progress : ℚ) * w.jira_in_progress
  + (user.tickets_blocked : ℚ) * w.jira_blocked

/-- WorkloadAnalyzer._calculate_calendar_score (analyzer.py lines 219-221). -/
def calculate_calendar_score (w : WorkloadWeights) (availability : UserAvailability) : ℚ :=
  availability.meeting_hours_this_week * w.meeting_hours

/-- WorkloadAnalyzer._calculate_max_score (analyzer.py lines 223-231). -/
def calculate_max_score (w : WorkloadWeights) : ℚ :=
  (w.max_open_prs : ℚ) * w.github_open_prs
  + (w.max_pending_reviews : ℚ) * w.github_pending_reviews
  + (w.max_assigned_issues : ℚ) * w.github_assigned_issues
  + w.max_story_points * w.jira_story_points
  + w.max_meeting_hours * w.meeting_hours

/-- WorkloadAnalyzer.analyze_member (analyzer.py lines 233-288); today is
the current day read by the next_pto property. -/
def analyze_member (w : WorkloadWeights) (name : String) (github : Option GitHubUser)
    (jira : Option JiraUser) (calendar : Option UserAvailability) (today : ℤ) :
    TeamMemberWorkload :=
  let github_part : ℚ := match github with | none => 0 | some g => calculate_github_score w g
  let jira_part : ℚ := match jira with | none => 0 | some j => calculate_jira_score w j
  let calendar_part : ℚ := match calendar with | none => 0 | some c => calculate_calendar_score w c
  let total_score := github_part + jira_part + calendar_part
  let max_score := calculate_max_score w
  { name := name
    email := match calendar with | none => none | some c => some c.email
    github_open_prs := match github with | none => 0 | some g => g.open_prs
    github_pending_reviews := match github with | none => 0 | some g => g.pending_reviews
    github_assigned_issues := match github with | none => 0 | some g => g.assigned_issues
    github_recent_commits := match github with | none => 0 | some g => g.recent_commits
    jira_story_points := match jira with | none => 0 | some j => j.total_story_points
    jira_tickets_in_progress := match jira with | none => 0 | some j => j.tickets_in_progress
    jira_tickets_blocked := match jira with | none => 0 | some j => j.tickets_blocked
    meeting_hours_this_week := match calendar with | none => 0 | some c => c.meeting_hours_this_week
    pto_days_upcoming := match calendar with
      | none => 0
      | some c => if c.pto_periods = [] then 0 else (c.pto_periods.map (fun p => p.days)).sum
    next_pto_date := match calendar with
      | none => none
      | some c => if c.pto_periods = [] then none
          else (c.next_pto today).map (fun p => p.start_date)
    workload_score := total_score
    workload_percentage := if 0 < max_score then total_score / max_score * 100 else 0 }

/-- WorkloadAnalyzer.identify_overloaded (analyzer.py lines 340-355); the
Python default threshold is 100. -/
def identify_overloaded (summary : TeamWorkloadSummary) (threshold : ℚ) :
    List TeamMemberWorkload :=
  summary.members.filter (fun m => threshold ≤ m.workload_percentage)

/-! Theorems.  Claim theorems are stated over the embedded definitions
above; helper lemmas come first. -/

/-- Helper: a filter with a pointwise stronger predicate is no longer. -/
lemma length_filter_le_of_imp {α : Type} (l : List α) (p q : α → Bool)
    (h : ∀ a ∈ l, p a → q a) : (l.filter p).length ≤ (l.filter q).length := by
  rw [← List.countP_eq_length_filter, ← List.countP_eq_length_filter]
  exact List.countP_mono_left h

/-- C7: identify_overloaded returns exactly the members whose workload
percentage is at least the threshold, in the existing order of the
summary, and the count is monotonically non-increasing in the
threshold. -/
theorem claim7_identify_overloaded (s : TeamWorkloadSummary) (t1 t2 : ℚ) :
    identify_overloaded s t1 = s.members.filter (fun m => t1 ≤ m.workload_percentage) ∧
    (∀ m ∈ identify_overloaded s t1, t1 ≤ m.workload_percentage) ∧
    (∀ m ∈ s.members, t1 ≤ m.workload_percentage → m ∈ identify_overloaded s t1) ∧
    (t1 ≤ t2 → (identify_overloaded s t2).length ≤ (identify_overloaded s t1).length) := by
  refine ⟨rfl, ?_, ?_, ?_⟩
  · intro m hm
    have := List.of_mem_filter hm
    simpa using this
  · intro m hm hpct
    exact List.mem_filter.2 ⟨hm, by simpa using hpct⟩
  · intro hle
    apply length_filter_le_of_imp
    intro m _ hm
    simp only [decide_eq_true_eq] at hm ⊢
    linarith

/-- C7 witness: a two-member summary evaluated at thresholds 50 and 100. -/
theorem claim7_identify_overloaded_witness :
    (50 : ℚ) ≤ 100 ∧
    (identify_overloaded
      ⟨[⟨"a", none, 0, 0, 0, 0, 0, 0, 0, 0, 0, none, 0, 120⟩,
        ⟨"b", none, 0, 0, 0, 0, 0, 0, 0, 0, 0, none, 0, 50⟩], 0⟩ 100).length
      ≤ (identify_overloaded
      ⟨[⟨"a", none, 0, 0, 0, 0, 0, 0, 0, 0, 0, none, 0, 120⟩,
        ⟨"b", none, 0, 0, 0, 0, 0, 0, 0, 0, 0, none, 0, 50⟩], 0⟩ 50).length :=
  ⟨by norm_num,
   (claim7_identify_overloaded
      ⟨[⟨"a", none, 0, 0, 0, 0, 0, 0, 0, 0, 0, none, 0, 120⟩,
        ⟨"b", none, 0, 0, 0, 0, 0, 0, 0, 0, 0, none, 0, 50⟩], 0⟩ 50 100).2.2.2 (by norm_num)⟩

/-- C8: the average workload is the arithmetic mean of the percentages (0
when the summary is empty), the reported variance value sd is the
population standard deviation (its square is the sum of squared deviations
divided by N, not N - 1; it is 0 with fewer than two members), and the
summary is balanced exactly when sd is below 30. -/
theorem claim8_team_statistics (s : TeamWorkloadSummary) (sd : ℚ)
    (h0 : 0 ≤ sd) (hsq : sd ^ 2 = s.workload_variance_sq) :
    (s.members = [] → s.average_workload = 0) ∧
    (s.members ≠ [] →
      s.average_workload * (s.members.length : ℚ)
        = (s.members.map (fun m => m.workload_percentage)).sum) ∧
    (2 ≤ s.members.length →
      sd ^ 2 * (s.members.length : ℚ)
        = (s.members.map (fun m => (m.workload_percentage - s.average_workload) ^ 2)).sum) ∧
    (s.members.length < 2 → sd = 0) ∧
    (s.is_balanced sd = true ↔ sd < 30) := by
  refine ⟨?_, ?_, ?_, ?_, ?_⟩
  · intro h
    simp [TeamWorkloadSummary.average_workload, h]
  · intro h
    have hlen : (s.members.length : ℚ) ≠ 0 := by
      have : s.members.length ≠ 0 := by simpa [List.length_eq_zero] using h
      exact_mod_cast this
    rw [TeamWorkloadSummary.average_workload, if_neg h, div_mul_cancel₀ _ hlen]
  · intro h
    have hlen : (s.members.length : ℚ) ≠ 0 := by
      have : 0 < s.members.length := by omega
      simpa using Nat.pos_iff_ne_zero.1 this
    rw [hsq, TeamWorkloadSummary.workload_variance_sq, if_neg (by omega), div_mul_cancel₀ _ hlen]
  · intro h
    have : sd ^ 2 = 0 := by
      rw [hsq, TeamWorkloadSummary.workload_variance_sq, if_pos h]
    have := pow_eq_zero_iff (n := 2) (by norm_num) |>.1 this
    exact this
  · simp [TeamWorkloadSummary.is_balanced]

/-- C8 witness: a summary with percentages 10 and 30, whose population
standard deviation is 10. -/
theorem claim8_team_statistics_witness :
    (0 : ℚ) ≤ 10 ∧
    (10 : ℚ) ^ 2 = (⟨[⟨"a", none, 0, 0, 0, 0, 0, 0, 0, 0, 0, none, 0, 10⟩,
        ⟨"b", none, 0, 0, 0, 0, 0, 0, 0, 0, 0, none, 0, 30⟩], 0⟩ :
        TeamWorkloadSummary).workload_variance_sq ∧
    ((⟨[⟨"a", none, 0, 0, 0, 0, 0, 0, 0, 0, 0, none, 0, 10⟩,
        ⟨"b", none, 0, 0, 0, 0, 0, 0, 0, 0, 0, none, 0, 30⟩], 0⟩ :
        TeamWorkloadSummary).is_balanced 10 = true ↔ (10 : ℚ) < 30) := by
  have hne : ([⟨"a", none, 0, 0, 0, 0, 0, 0, 0, 0, 0, none, 0, 10⟩,
      ⟨"b", none, 0, 0, 0, 0, 0, 0, 0, 0, 0, none, 0, 30⟩] : List TeamMemberWorkload) ≠ [] := by
    simp
  have havg : (⟨[⟨"a", none, 0, 0, 0, 0, 0, 0, 0, 0, 0, none, 0, 10⟩,
      ⟨"b", none, 0, 0, 0, 0, 0, 0, 0, 0, 0, none, 0, 30⟩], 0⟩ :
      TeamWorkloadSummary).average_workload = 20 := by
    simp only [TeamWorkloadSummary.average_workload]
    rw [if_neg hne]
    norm_num
  have hsq : (10 : ℚ) ^ 2 = (⟨[⟨"a", none, 0, 0, 0, 0, 0, 0, 0, 0, 0, none, 0, 10⟩,
      ⟨"b", none, 0, 0, 0, 0, 0, 0, 0, 0, 0, none, 0, 30⟩], 0⟩ :
      TeamWorkloadSummary).workload_variance_sq := by
    simp only [TeamWorkloadSummary.workload_variance_sq, havg]
    norm_num
  exact ⟨by norm_num, hsq,
    (claim8_team_statistics _ 10 (by norm_num) hsq).2.2.2.2⟩

/-- C9: the healthy, at-capacity and overloaded counts always sum to the
team size, and each status is characterized by exactly one percentage
interval (below 80; at least 80 and below 100; at least 100). -/
theorem claim9_status_partition (s : TeamWorkloadSummary) :
    s.healthy_count + s.at_capacity_count + s.overloaded_count = s.team_size ∧
    (∀ m : TeamMemberWorkload,
      (m.status = WorkloadStatus.healthy ↔ m.workload_percentage < 80) ∧
      (m.status = WorkloadStatus.at_capacity ↔
        80 ≤ m.workload_percentage ∧ m.workload_percentage < 100) ∧
      (m.status = WorkloadStatus.overloaded ↔ 100 ≤ m.workload_percentage)) := by
  constructor
  · have key : ∀ l : List TeamMemberWorkload,
        (l.filter (fun m => m.status == WorkloadStatus.healthy)).length
        + (l.filter (fun m => m.status == WorkloadStatus.at_capacity)).length
        + (l.filter (fun m => m.status == WorkloadStatus.overloaded)).length = l.length := by
      intro l
      induction l with
      | nil => rfl
      | cons m l ih =>
        simp only [List.filter_cons]
        cases hst : m.status <;>
          simp [hst, List.length_cons, ← ih] <;> omega
    exact key s.members
  · intro m
    unfold TeamMemberWorkload.status
    split_ifs with h1 h2 <;>
      refine ⟨?_, ?_, ?_⟩ <;> simp_all <;> linarith

/-- C10: the top-N queries return at most N members drawn from the
summary, and leave the stored member list unchanged (the second component
is the object state after the call). -/
theorem claim10_query_frame (s : TeamWorkloadSummary) (n : ℕ) :
    (s.get_most_overloaded n).2 = s ∧
    (s.get_most_overloaded n).1.length ≤ n ∧
    (∀ m ∈ (s.get_most_overloaded n).1, m ∈ s.members) ∧
    (s.get_available_capacity n).2 = s ∧
    (s.get_available_capacity n).1.length ≤ n ∧
    (∀ m ∈ (s.get_available_capacity n).1, m ∈ s.members) := by
  refine ⟨rfl, ?_, ?_, rfl, ?_, ?_⟩
  · simpa [TeamWorkloadSummary.get_most_overloaded, List.length_take] using
      min_le_left n _
  · intro m hm
    have hmem := List.mem_of_mem_take (l := _) hm
    exact (List.perm_insertionSort _ s.members).subset hmem
  · simpa [TeamWorkloadSummary.get_available_capacity, List.length_take] using
      min_le_left n _
  · intro m hm
    have hmem := List.mem_of_mem_take (l := _) hm
    exact (List.perm_insertionSort _ s.members).subset hmem

/-- C2 (amended): the max score is the sum of exactly the five
ceiling-times-weight products (commit count and in-progress/blocked counts
contribute no ceiling term), and the workload percentage is raw score
divided by max score times 100 when the max score is positive, and 0
otherwise (in particular when the max score is 0). -/
theorem claim2_percentage_normalization (w : WorkloadWeights) (name : String)
    (github : Option GitHubUser) (jira : Option JiraUser)
    (calendar : Option UserAvailability) (today : ℤ) :
    calculate_max_score w
      = (w.max_open_prs : ℚ) * w.github_open_prs
        + (w.max_pending_reviews : ℚ) * w.github_pending_reviews
        + (w.max_assigned_issues : ℚ) * w.github_assigned_issues
        + w.max_story_points * w.jira_story_points
        + w.max_meeting_hours * w.meeting_hours ∧
    (0 < calculate_max_score w →
      (analyze_member w name github jira calendar today).workload_percentage
        = (analyze_member w name github jira calendar today).workload_score
          / calculate_max_score w * 100) ∧
    (calculate_max_score w ≤ 0 →
      (analyze_member w name github jira calendar today).workload_percentage = 0) := by
  have hfield : (analyze_member w name github jira calendar today).workload_percentage
      = (if 0 < calculate_max_score w then
        (analyze_member w name github jira calendar today).workload_score
          / calculate_max_score w * 100 else 0) := rfl
  refine ⟨rfl, ?_, ?_⟩
  · intro h
    rw [hfield, if_pos h]
  · intro h
    rw [hfield, if_neg (not_lt.2 h)]

/-- C2 counterexample: with every weight equal to -1 and the default
ceilings, the max score is -56; a member with one open review has raw
score -1 but reported percentage 0, not (-1) / (-56) * 100. -/
theorem claim2_counterexample :
    calculate_max_score ⟨-1, -1, -1, -1, -1, -1, -1, -1, 5, 8, 10, 13, 20⟩ = -56 ∧
    (analyze_member ⟨-1, -1, -1, -1, -1, -1, -1, -1, 5, 8, 10, 13, 20⟩ "x"
      (some ⟨"x", none, 1, 0, 0, 0⟩) none none 0).workload_score = -1 ∧
    (analyze_member ⟨-1, -1, -1, -1, -1, -1, -1, -1, 5, 8, 10, 13, 20⟩ "x"
      (some ⟨"x", none, 1, 0, 0, 0⟩) none none 0).workload_percentage = 0 ∧
    (analyze_member ⟨-1, -1, -1, -1, -1, -1, -1, -1, 5, 8, 10, 13, 20⟩ "x"
      (some ⟨"x", none, 1, 0, 0, 0⟩) none none 0).workload_score
      / calculate_max_score ⟨-1, -1, -1, -1, -1, -1, -1, -1, 5, 8, 10, 13, 20⟩ * 100 ≠ 0 := by
  refine ⟨by norm_num [calculate_max_score], ?_, ?_, ?_⟩
  · norm_num [analyze_member, calculate_github_score]
  · norm_num [analyze_member, calculate_github_score, calculate_max_score]
  · norm_num [analyze_member, calculate_github_score, calculate_max_score]

/-- C2 witness: the default weights with the worked example of the
specification (3 open reviews, 5 pending reviews, 4 assigned items, 10
commits). -/
theorem claim2_percentage_normalization_witness :
    0 < calculate_max_score defaultWeights ∧
    (analyze_member defaultWeights "alice" (some ⟨"alice", none, 3, 5, 4, 10⟩)
        none none 0).workload_percentage
      = (analyze_member defaultWeights "alice" (some ⟨"alice", none, 3, 5, 4, 10⟩)
        none none 0).workload_score / calculate_max_score defaultWeights * 100 :=
  ⟨by norm_num [calculate_max_score, defaultWeights],
   (claim2_percentage_normalization defaultWeights "alice"
      (some ⟨"alice", none, 3, 5, 4, 10⟩) none none 0).2.1
     (by norm_num [calculate_max_score, defaultWeights])⟩

/-- C6 (amended): when the accumulated risk score of an assessed ticket
reaches 60, exactly one recommendation is chosen by priority: blocked
first, then missing assignee, then a not-started status restricted to
"to do" or "backlog" (a ticket with status "open" falls through to the
last branch), else monitor closely; below 60 no recommendation is
attached. -/
theorem claim6_recommendation_priority (ticket : JiraTicket) (days_remaining : ℤ)
    (sprint_progress : ℚ) :
    (60 ≤ (assess_ticket_risk ticket days_remaining sprint_progress).risk_score →
      (assess_ticket_risk ticket days_remaining sprint_progress).recommendation
        = some (if ticket.is_blocked = true then "Unblock immediately or move to next sprint"
            else if ticket.has_assignee = false then "Assign to team member with capacity"
            else if ["to do", "backlog"].contains (strLower ticket.status) then
              "Consider descoping to next sprint"
            else "Monitor closely, may need descoping")) ∧
    ((assess_ticket_risk ticket days_remaining sprint_progress).risk_score < 60 →
      (assess_ticket_risk ticket days_remaining sprint_progress).recommendation = none) := by
  have hsc : (assess_ticket_risk ticket days_remaining sprint_progress).risk_score
      = min 100 (ticketRawRisk ticket days_remaining sprint_progress).1 := rfl
  have hrec : (assess_ticket_risk ticket days_remaining sprint_progress).recommendation
      = ticketRecommendation ticket days_remaining sprint_progress := rfl
  constructor
  · intro h
    rw [hsc] at h
    have hraw : 60 ≤ (ticketRawRisk ticket days_remaining sprint_progress).1 :=
      le_trans h (min_le_right _ _)
    rw [hrec, ticketRecommendation, if_pos hraw]
  · intro h
    rw [hsc] at h
    have hraw : (ticketRawRisk ticket days_remaining sprint_progress).1 < 60 := by
      by_contra hge
      push_neg at hge
      exact absurd h (not_lt.2 (le_min (by norm_num) hge))
    rw [hrec, ticketRecommendation, if_neg (not_le.2 hraw)]

/-- C6 counterexample: a ticket with status "Open" (a not-started status
for the scoring rules), an assignee, 5 points, 2 days remaining and
progress 4/5 scores 90, is not blocked, yet receives the monitor-closely
recommendation rather than the descoping one the claim requires for
not-started statuses. -/
theorem claim6_counterexample :
    ["to do", "backlog", "open"].contains
      (strLower (JiraTicket.mk "PROJ-9" "Open item" "Open" (some "Alice") (some 5) []).status)
      = true ∧
    (JiraTicket.mk "PROJ-9" "Open item" "Open" (some "Alice") (some 5) []).is_blocked = false ∧
    (JiraTicket.mk "PROJ-9" "Open item" "Open" (some "Alice") (some 5) []).has_assignee = true ∧
    (assess_ticket_risk (JiraTicket.mk "PROJ-9" "Open item" "Open" (some "Alice") (some 5) [])
      2 (4 / 5)).risk_score = 90 ∧
    (assess_ticket_risk (JiraTicket.mk "PROJ-9" "Open item" "Open" (some "Alice") (some 5) [])
      2 (4 / 5)).recommendation = some "Monitor closely, may need descoping" := by
  have hns : ["to do", "backlog", "open"].contains
      (strLower (JiraTicket.mk "PROJ-9" "Open item" "Open" (some "Alice") (some 5) []).status)
      = true := by decide
  have hb : (JiraTicket.mk "PROJ-9" "Open item" "Open" (some "Alice") (some 5) []).is_blocked
      = false := by decide
  have ha : (JiraTicket.mk "PROJ-9" "Open item" "Open" (some "Alice") (some 5) []).has_assignee
      = true := by decide
  have hnd : ["to do", "backlog"].contains
      (strLower (JiraTicket.mk "PROJ-9" "Open item" "Open" (some "Alice") (some 5) []).status)
      = false := by decide
  have hlow : strLower "Open" = "open" := by decide
  have hraw : (ticketRawRisk (JiraTicket.mk "PROJ-9" "Open item" "Open" (some "Alice") (some 5) [])
      2 (4 / 5)).1 = 90 := by
    norm_num [ticketRawRisk, hlow, hb, ha]
  have hsc : (assess_ticket_risk (JiraTicket.mk "PROJ-9" "Open item" "Open" (some "Alice") (some 5) [])
      2 (4 / 5)).risk_score
      = min 100 (ticketRawRisk (JiraTicket.mk "PROJ-9" "Open item" "Open" (some "Alice") (some 5) [])
        2 (4 / 5)).1 := rfl
  refine ⟨hns, hb, ha, ?_, ?_⟩
  · rw [hsc, hraw]
    norm_num
  · show ticketRecommendation _ 2 (4 / 5) = _
    rw [ticketRecommendation, if_pos (by rw [hraw]; norm_num)]
    norm_num [hb, ha, hlow]
    decide

/-- C6 witness: a blocked unassigned 8-point ticket with 1 day remaining
scores 100 and receives the unblock-or-defer recommendation. -/
theorem claim6_recommendation_priority_witness :
    60 ≤ (assess_ticket_risk (JiraTicket.mk "B1" "x" "Blocked" none (some 8) [])
      1 (9 / 10)).risk_score ∧
    (assess_ticket_risk (JiraTicket.mk "B1" "x" "Blocked" none (some 8) [])
      1 (9 / 10)).recommendation = some "Unblock immediately or move to next sprint" := by
  have hlow : strLower "Blocked" = "blocked" := by decide
  have hb : (JiraTicket.mk "B1" "x" "Blocked" none (some 8) []).is_blocked = true := by decide
  have ha : (JiraTicket.mk "B1" "x" "Blocked" none (some 8) []).has_assignee = false := by decide
  have hno : ¬(("blocked" : String) = "to do" ∨ ("blocked" : String) = "backlog"
      ∨ ("blocked" : String) = "open") := by decide
  have hraw : (ticketRawRisk (JiraTicket.mk "B1" "x" "Blocked" none (some 8) [])
      1 (9 / 10)).1 = 100 := by
    norm_num [ticketRawRisk, hlow, hb, ha, hno]
  have hsc : (assess_ticket_risk (JiraTicket.mk "B1" "x" "Blocked" none (some 8) [])
      1 (9 / 10)).risk_score
      = min 100 (ticketRawRisk (JiraTicket.mk "B1" "x" "Blocked" none (some 8) [])
        1 (9 / 10)).1 := rfl
  have h60 : 60 ≤ (assess_ticket_risk (JiraTicket.mk "B1" "x" "Blocked" none (some 8) [])
      1 (9 / 10)).risk_score := by
    rw [hsc, hraw]; norm_num
  refine ⟨h60, ?_⟩
  have h := (claim6_recommendation_priority
    (JiraTicket.mk "B1" "x" "Blocked" none (some 8) []) 1 (9 / 10)).1 h60
  rw [h, if_pos hb]

/-- Helper: the statistics record over a nonempty history carries the
history length, the arithmetic mean and the externally supplied root. -/
lemma calculate_velocity_stats_fields (h : List ℚ) (sd : ℚ) (hne : h ≠ []) :
    (calculate_velocity_stats h sd).sprints_analyzed = h.length ∧
    (calculate_velocity_stats h sd).average = h.sum / (h.length : ℚ) ∧
    (calculate_velocity_stats h sd).std_dev = sd := by
  unfold calculate_velocity_stats
  rw [if_neg hne]
  exact ⟨rfl, rfl, rfl⟩

/-- Helper: the historical mean is nonnegative for nonnegative history. -/
lemma calculate_velocity_stats_average_nonneg (h : List ℚ) (sd : ℚ)
    (hh : ∀ x ∈ h, 0 ≤ x) : 0 ≤ (calculate_velocity_stats h sd).average := by
  by_cases hne : h = []
  · subst hne
    norm_num [calculate_velocity_stats]
  · rw [(calculate_velocity_stats_fields h sd hne).2.1]
    exact div_nonneg (List.sum_nonneg hh) (by positivity)

/-- Helper: days remaining are never negative. -/
lemma days_remaining_nonneg (s : Sprint) (now : ℤ) : 0 ≤ s.days_remaining now := by
  unfold Sprint.days_remaining
  cases s.end_date with
  | none => exact le_refl 0
  | some e => exact le_max_left 0 _

/-- Helper: the total points are nonnegative for nonnegative sizes. -/
lemma totalPoints_nonneg (tickets : List JiraTicket)
    (h : ∀ t ∈ tickets, 0 ≤ t.story_points.getD 0) : 0 ≤ totalPoints tickets := by
  apply List.sum_nonneg
  intro x hx
  obtain ⟨t, ht, rfl⟩ := List.mem_map.1 hx
  exact h t ht

/-- Helper: the completed points are nonnegative for nonnegative sizes. -/
lemma completedPoints_nonneg (tickets : List JiraTicket)
    (h : ∀ t ∈ tickets, 0 ≤ t.story_points.getD 0) : 0 ≤ completedPoints tickets := by
  apply List.sum_nonneg
  intro x hx
  obtain ⟨t, ht, rfl⟩ := List.mem_map.1 hx
  exact h t (List.mem_of_mem_filter ht)

/-- Helper: the forecast probability stays within the unit percentage
interval whenever done and total points are nonnegative. -/
lemma completionForecast_prob_range (vs : VelocityStats) (c r t : ℚ) (dr : ℤ) (prog : ℚ)
    (hc : 0 ≤ c) (ht : 0 ≤ t) :
    0 ≤ (completionForecast vs c r t dr prog).2 ∧ (completionForecast vs c r t dr prog).2 ≤ 100 := by
  unfold completionForecast
  split_ifs with h1 h2 h3 h4 <;> dsimp only
  · exact ⟨le_max_left _ _, max_le (by norm_num) (min_le_left _ _)⟩
  · exact ⟨by norm_num, by norm_num⟩
  · exact ⟨le_min (by norm_num)
      (mul_nonneg (div_nonneg (div_nonneg hc h3.le) h4.le) (by norm_num)),
      min_le_left _ _⟩
  · exact ⟨by norm_num, by norm_num⟩
  · exact ⟨by norm_num, by norm_num⟩

/-- Helper: the internal predicted completion is nonnegative for
nonnegative inputs. -/
lemma completionForecast_pred_nonneg (vs : VelocityStats) (c r t : ℚ) (dr : ℤ) (prog : ℚ)
    (hc : 0 ≤ c) (ht : 0 ≤ t) (ha : 0 ≤ vs.average) (hdr : 0 ≤ dr) :
    0 ≤ (completionForecast vs c r t dr prog).1 := by
  unfold completionForecast
  split_ifs with h1 h2 h3 h4 <;> dsimp only
  · exact add_nonneg hc (mul_nonneg (div_nonneg ha (by norm_num)) (by exact_mod_cast hdr))
  · exact add_nonneg hc (mul_nonneg (div_nonneg ha (by norm_num)) (by exact_mod_cast hdr))
  · exact div_nonneg hc h3.le
  · exact div_nonneg hc h3.le
  · exact ht

/-- Helper: the reported probability field is the second component of the
forecast core. -/
lemma predict_probability_def (sprint : Sprint) (tickets : List JiraTicket)
    (velocity_history : List ℚ) (sd : ℚ) (now : ℤ) :
    (predict sprint tickets velocity_history sd now).completion_probability
      = (predictCore sprint tickets velocity_history sd now).2 := rfl

/-- Helper: the reported predicted completion is the core value capped at
the total. -/
lemma predict_completion_def (sprint : Sprint) (tickets : List JiraTicket)
    (velocity_history : List ℚ) (sd : ℚ) (now : ℤ) :
    (predict sprint tickets velocity_history sd now).predicted_completion_points
      = min (predictCore sprint tickets velocity_history sd now).1 (totalPoints tickets) := rfl

/-- Helper: the reported predicted remaining is the floored difference
from the uncapped core value. -/
lemma predict_remaining_def (sprint : Sprint) (tickets : List JiraTicket)
    (velocity_history : List ℚ) (sd : ℚ) (now : ℤ) :
    (predict sprint tickets velocity_history sd now).predicted_remaining_points
      = max 0 (totalPoints tickets - (predictCore sprint tickets velocity_history sd now).1) := rfl

/-- Helper: the reported total is the ticket point sum. -/
lemma predict_total_def (sprint : Sprint) (tickets : List JiraTicket)
    (velocity_history : List ℚ) (sd : ℚ) (now : ℤ) :
    (predict sprint tickets velocity_history sd now).total_points = totalPoints tickets := rfl

/-- C3 (amended): the completion probability lies in [0, 100] for every
sprint, velocity history and reported standard deviation, provided every
size-point value on the tickets is nonnegative. -/
theorem claim3_probability_range (sprint : Sprint) (tickets : List JiraTicket)
    (velocity_history : List ℚ) (sd : ℚ) (now : ℤ)
    (hpts : ∀ t ∈ tickets, 0 ≤ t.story_points.getD 0) :
    0 ≤ (predict sprint tickets velocity_history sd now).completion_probability ∧
    (predict sprint tickets velocity_history sd now).completion_probability ≤ 100 := by
  rw [predict_probability_def]
  simp only [predictCore]
  exact completionForecast_prob_range _ _ _ _ _ _
    (completedPoints_nonneg _ hpts) (totalPoints_nonneg _ hpts)

/-- C3 counterexample: with a done ticket of -5 points and a to-do ticket
of 10 points, half way through the sprint and with no history, the linear
projection reports a completion probability of -200, outside [0, 100]. -/
theorem claim3_counterexample :
    (predict (Sprint.mk 1 "S" "active" (some 0) (some 10))
      [JiraTicket.mk "A" "a" "Done" (some "A") (some (-5)) [],
       JiraTicket.mk "B" "b" "To Do" (some "B") (some 10) []] [] 0 5).completion_probability
      = -200 ∧
    (predict (Sprint.mk 1 "S" "active" (some 0) (some 10))
      [JiraTicket.mk "A" "a" "Done" (some "A") (some (-5)) [],
       JiraTicket.mk "B" "b" "To Do" (some "B") (some 10) []] [] 0 5).completion_probability
      < 0 := by
  have h1 : (JiraTicket.mk "A" "a" "Done" (some "A") (some (-5)) []).is_done = true := by decide
  have h2 : (JiraTicket.mk "B" "b" "To Do" (some "B") (some 10) []).is_done = false := by decide
  have hc : completedPoints [JiraTicket.mk "A" "a" "Done" (some "A") (some (-5)) [],
      JiraTicket.mk "B" "b" "To Do" (some "B") (some 10) []] = -5 := by
    simp [completedPoints, List.filter, h1, h2]
  have ht : totalPoints [JiraTicket.mk "A" "a" "Done" (some "A") (some (-5)) [],
      JiraTicket.mk "B" "b" "To Do" (some "B") (some 10) []] = 5 := by
    norm_num [totalPoints]
  have hdr : (Sprint.mk 1 "S" "active" (some 0) (some 10)).days_remaining 5 = 5 := by
    norm_num [Sprint.days_remaining]
  have hpr : ((Sprint.mk 1 "S" "active" (some 0) (some 10)).elapsed_progress 5).2 = 1 / 2 := by
    norm_num [Sprint.elapsed_progress, hdr]
  have hmain : (predict (Sprint.mk 1 "S" "active" (some 0) (some 10))
      [JiraTicket.mk "A" "a" "Done" (some "A") (some (-5)) [],
       JiraTicket.mk "B" "b" "To Do" (some "B") (some 10) []] [] 0 5).completion_probability
      = -200 := by
    rw [predict_probability_def]
    simp only [predictCore]
    rw [hc, ht, hdr, hpr]
    show (completionForecast (calculate_velocity_stats [] 0) (-5) (5 - -5) 5 5 (1 / 2)).2 = -200
    have hst : calculate_velocity_stats [] 0
        = ⟨0, 0, 0, 0, 0, "unknown", 0⟩ := rfl
    rw [hst]
    norm_num [completionForecast]
  exact ⟨hmain, by rw [hmain]; norm_num⟩

/-- C3 witness: a single done three-point ticket. -/
theorem claim3_probability_range_witness :
    0 ≤ (predict (Sprint.mk 1 "S" "active" (some 0) (some 10))
      [JiraTicket.mk "P1" "x" "Done" (some "A") (some 3) []] [] 0 5).completion_probability ∧
    (predict (Sprint.mk 1 "S" "active" (some 0) (some 10))
      [JiraTicket.mk "P1" "x" "Done" (some "A") (some 3) []] [] 0 5).completion_probability
      ≤ 100 :=
  claim3_probability_range (Sprint.mk 1 "S" "active" (some 0) (some 10))
    [JiraTicket.mk "P1" "x" "Done" (some "A") (some 3) []] [] 0 5
    (by intro t ht; simp at ht; subst ht; norm_num)

/-- C5 (amended): with nonnegative ticket sizes and nonnegative historical
completed points, the reported predicted-completion points lie in
[0, total points]; and unconditionally the reported predicted-remaining
points equal total minus the reported predicted-completion, floored
at 0. -/
theorem claim5_reported_points (sprint : Sprint) (tickets : List JiraTicket)
    (velocity_history : List ℚ) (sd : ℚ) (now : ℤ) :
    ((∀ t ∈ tickets, 0 ≤ t.story_points.getD 0) → (∀ x ∈ velocity_history, 0 ≤ x) →
      0 ≤ (predict sprint tickets velocity_history sd now).predicted_completion_points ∧
      (predict sprint tickets velocity_history sd now).predicted_completion_points
        ≤ (predict sprint tickets velocity_history sd now).total_points) ∧
    (predict sprint tickets velocity_history sd now).predicted_remaining_points
      = max 0 ((predict sprint tickets velocity_history sd now).total_points
          - (predict sprint tickets velocity_history sd now).predicted_completion_points) := by
  constructor
  · intro hpts hhist
    have hc := completedPoints_nonneg _ hpts
    have ht := totalPoints_nonneg _ hpts
    have hpred : 0 ≤ (predictCore sprint tickets velocity_history sd now).1 := by
      simp only [predictCore]
      exact completionForecast_pred_nonneg _ _ _ _ _ _ hc ht
        (calculate_velocity_stats_average_nonneg _ _ hhist) (days_remaining_nonneg _ _)
    constructor
    · rw [predict_completion_def]
      exact le_min hpred ht
    · rw [predict_completion_def, predict_total_def]
      exact min_le_right _ _
  · rw [predict_remaining_def, predict_completion_def, predict_total_def]
    rcases le_total (predictCore sprint tickets velocity_history sd now).1 (totalPoints tickets)
      with hle | hge
    · rw [min_eq_left hle]
    · rw [min_eq_right hge, sub_self,
        max_eq_left (by linarith :
          totalPoints tickets - (predictCore sprint tickets velocity_history sd now).1 ≤ 0),
        max_eq_left (le_refl (0 : ℚ))]

/-- C5 counterexample: with a done ticket of -5 points and a to-do ticket
of 10 points, half way through the sprint and with no history, the
reported predicted-completion points are -10, below the lower end of
[0, total]. -/
theorem claim5_counterexample :
    (predict (Sprint.mk 1 "S" "active" (some 0) (some 10))
      [JiraTicket.mk "A" "a" "Done" (some "A") (some (-5)) [],
       JiraTicket.mk "B" "b" "To Do" (some "B") (some 10) []] [] 0 5).predicted_completion_points
      = -10 ∧
    (predict (Sprint.mk 1 "S" "active" (some 0) (some 10))
      [JiraTicket.mk "A" "a" "Done" (some "A") (some (-5)) [],
       JiraTicket.mk "B" "b" "To Do" (some "B") (some 10) []] [] 0 5).total_points = 5 ∧
    (predict (Sprint.mk 1 "S" "active" (some 0) (some 10))
      [JiraTicket.mk "A" "a" "Done" (some "A") (some (-5)) [],
       JiraTicket.mk "B" "b" "To Do" (some "B") (some 10) []] [] 0 5).predicted_completion_points
      < 0 := by
  have h1 : (JiraTicket.mk "A" "a" "Done" (some "A") (some (-5)) []).is_done = true := by decide
  have h2 : (JiraTicket.mk "B" "b" "To Do" (some "B") (some 10) []).is_done = false := by decide
  have hc : completedPoints [JiraTicket.mk "A" "a" "Done" (some "A") (some (-5)) [],
      JiraTicket.mk "B" "b" "To Do" (some "B") (some 10) []] = -5 := by
    simp [completedPoints, List.filter, h1, h2]
  have ht : totalPoints [JiraTicket.mk "A" "a" "Done" (some "A") (some (-5)) [],
      JiraTicket.mk "B" "b" "To Do" (some "B") (some 10) []] = 5 := by
    norm_num [totalPoints]
  have hdr : (Sprint.mk 1 "S" "active" (some 0) (some 10)).days_remaining 5 = 5 := by
    norm_num [Sprint.days_remaining]
  have hpr : ((Sprint.mk 1 "S" "active" (some 0) (some 10)).elapsed_progress 5).2 = 1 / 2 := by
    norm_num [Sprint.elapsed_progress, hdr]
  have hcore : (predictCore (Sprint.mk 1 "S" "active" (some 0) (some 10))
      [JiraTicket.mk "A" "a" "Done" (some "A") (some (-5)) [],
       JiraTicket.mk "B" "b" "To Do" (some "B") (some 10) []] [] 0 5).1 = -10 := by
    simp only [predictCore]
    rw [hc, ht, hdr, hpr]
    show (completionForecast (calculate_velocity_stats [] 0) (-5) (5 - -5) 5 5 (1 / 2)).1 = -10
    have hst : calculate_velocity_stats [] 0 = ⟨0, 0, 0, 0, 0, "unknown", 0⟩ := rfl
    rw [hst]
    norm_num [completionForecast]
  have hrep : (predict (Sprint.mk 1 "S" "active" (some 0) (some 10))
      [JiraTicket.mk "A" "a" "Done" (some "A") (some (-5)) [],
       JiraTicket.mk "B" "b" "To Do" (some "B") (some 10) []] [] 0 5).predicted_completion_points
      = -10 := by
    rw [predict_completion_def, hcore, ht]
    norm_num
  refine ⟨hrep, ?_, by rw [hrep]; norm_num⟩
  rw [predict_total_def, ht]

/-- C5 witness: a single done three-point ticket with empty history. -/
theorem claim5_reported_points_witness :
    0 ≤ (predict (Sprint.mk 1 "S" "active" (some 0) (some 10))
      [JiraTicket.mk "P1" "x" "Done" (some "A") (some 3) []] [] 0 5).predicted_completion_points ∧
    (predict (Sprint.mk 1 "S" "active" (some 0) (some 10))
      [JiraTicket.mk "P1" "x" "Done" (some "A") (some 3) []] [] 0 5).predicted_completion_points
      ≤ (predict (Sprint.mk 1 "S" "active" (some 0) (some 10))
      [JiraTicket.mk "P1" "x" "Done" (some "A") (some 3) []] [] 0 5).total_points ∧
    (predict (Sprint.mk 1 "S" "active" (some 0) (some 10))
      [JiraTicket.mk "P1" "x" "Done" (some "A") (some 3) []] [] 0 5).predicted_remaining_points
      = max 0 ((predict (Sprint.mk 1 "S" "active" (some 0) (some 10))
      [JiraTicket.mk "P1" "x" "Done" (some "A") (some 3) []] [] 0 5).total_points
          - (predict (Sprint.mk 1 "S" "active" (some 0) (some 10))
      [JiraTicket.mk "P1" "x" "Done" (some "A") (some 3) []] [] 0 5).predicted_completion_points) :=
  ⟨((claim5_reported_points (Sprint.mk 1 "S" "active" (some 0) (some 10))
      [JiraTicket.mk "P1" "x" "Done" (some "A") (some 3) []] [] 0 5).1
      (by intro t ht; simp at ht; subst ht; norm_num)
      (by intro x hx; simp at hx)).1,
   ((claim5_reported_points (Sprint.mk 1 "S" "active" (some 0) (some 10))
      [JiraTicket.mk "P1" "x" "Done" (some "A") (some 3) []] [] 0 5).1
      (by intro t ht; simp at ht; subst ht; norm_num)
      (by intro x hx; simp at hx)).2,
   (claim5_reported_points (Sprint.mk 1 "S" "active" (some 0) (some 10))
      [JiraTicket.mk "P1" "x" "Done" (some "A") (some 3) []] [] 0 5).2⟩

/-- C1: with at least three velocity records, the forecast uses the
history-backed regime: the internal predicted completion is done points
plus the historical mean divided by 10 times the days remaining, and the
completion probability is clamp(50 - 25z, 0, 100) with
z = (remaining - points-per-day times days-remaining) / sd when the
population standard deviation sd is positive, and exactly 50 when sd
is 0. -/
theorem claim1_history_backed_regime (sprint : Sprint) (tickets : List JiraTicket)
    (velocity_history : List ℚ) (sd : ℚ) (now : ℤ)
    (h3 : 3 ≤ velocity_history.length) (hsd0 : 0 ≤ sd)
    (hsd : sd ^ 2 = velocityVariance velocity_history) :
    (predictCore sprint tickets velocity_history sd now).1
      = completedPoints tickets
        + velocity_history.sum / (velocity_history.length : ℚ) / 10
          * ((sprint.days_remaining now : ℤ) : ℚ) ∧
    (predict sprint tickets velocity_history sd now).completion_probability
      = (if 0 < sd then
          max 0 (min 100 (50 -
            (totalPoints tickets - completedPoints tickets
              - velocity_history.sum / (velocity_history.length : ℚ) / 10
                * ((sprint.days_remaining now : ℤ) : ℚ)) / sd * 25))
        else 50) ∧
    (sd = 0 → (predict sprint tickets velocity_history sd now).completion_probability = 50) := by
  have hne : velocity_history ≠ [] := by
    intro h
    rw [h] at h3
    simp at h3
  obtain ⟨hn, ha, hs⟩ := calculate_velocity_stats_fields velocity_history sd hne
  have hn3 : 3 ≤ (calculate_velocity_stats velocity_history sd).sprints_analyzed := by
    rw [hn]; exact h3
  have hfirst : (predictCore sprint tickets velocity_history sd now).1
      = completedPoints tickets
        + velocity_history.sum / (velocity_history.length : ℚ) / 10
          * ((sprint.days_remaining now : ℤ) : ℚ) := by
    simp only [predictCore, completionForecast]
    rw [if_pos hn3]
    by_cases hpos : 0 < (calculate_velocity_stats velocity_history sd).std_dev
    · rw [if_pos hpos]
      dsimp only
      rw [ha]
    · rw [if_neg hpos]
      dsimp only
      rw [ha]
  have hsecond : (predict sprint tickets velocity_history sd now).completion_probability
      = (if 0 < sd then
          max 0 (min 100 (50 -
            (totalPoints tickets - completedPoints tickets
              - velocity_history.sum / (velocity_history.length : ℚ) / 10
                * ((sprint.days_remaining now : ℤ) : ℚ)) / sd * 25))
        else 50) := by
    rw [predict_probability_def]
    simp only [predictCore, completionForecast]
    rw [if_pos hn3, hs]
    by_cases hpos : 0 < sd
    · rw [if_pos hpos, if_pos hpos]
      dsimp only
      rw [ha]
    · rw [if_neg hpos, if_neg hpos]
  refine ⟨hfirst, hsecond, ?_⟩
  intro h0
  rw [hsecond, h0]
  norm_num

/-- C1 witness: four velocity records 10, 20, 10, 20 (mean 15, population
standard deviation 5), a done ticket of 10 points and a to-do ticket of 5
points, 4 days remaining. -/
theorem claim1_history_backed_regime_witness :
    (predictCore (Sprint.mk 1 "S" "active" (some 0) (some 10))
      [JiraTicket.mk "P1" "d" "Done" (some "A") (some 10) [],
       JiraTicket.mk "P2" "t" "To Do" (some "B") (some 5) []] [10, 20, 10, 20] 5 6).1
      = completedPoints [JiraTicket.mk "P1" "d" "Done" (some "A") (some 10) [],
          JiraTicket.mk "P2" "t" "To Do" (some "B") (some 5) []]
        + ([10, 20, 10, 20] : List ℚ).sum / (([10, 20, 10, 20] : List ℚ).length : ℚ) / 10
          * (((Sprint.mk 1 "S" "active" (some 0) (some 10)).days_remaining 6 : ℤ) : ℚ) ∧
    (predict (Sprint.mk 1 "S" "active" (some 0) (some 10))
      [JiraTicket.mk "P1" "d" "Done" (some "A") (some 10) [],
       JiraTicket.mk "P2" "t" "To Do" (some "B") (some 5) []]
      [10, 20, 10, 20] 5 6).completion_probability
      = (if (0 : ℚ) < 5 then
          max 0 (min 100 (50 -
            (totalPoints [JiraTicket.mk "P1" "d" "Done" (some "A") (some 10) [],
                JiraTicket.mk "P2" "t" "To Do" (some "B") (some 5) []]
              - completedPoints [JiraTicket.mk "P1" "d" "Done" (some "A") (some 10) [],
                JiraTicket.mk "P2" "t" "To Do" (some "B") (some 5) []]
              - ([10, 20, 10, 20] : List ℚ).sum / (([10, 20, 10, 20] : List ℚ).length : ℚ) / 10
                * (((Sprint.mk 1 "S" "active" (some 0) (some 10)).days_remaining 6 : ℤ) : ℚ))
              / 5 * 25))
        else 50) := by
  have hvar : (5 : ℚ) ^ 2 = velocityVariance [10, 20, 10, 20] := by
    unfold velocityVariance
    rw [if_neg (by simp)]
    norm_num
  have h := claim1_history_backed_regime (Sprint.mk 1 "S" "active" (some 0) (some 10))
    [JiraTicket.mk "P1" "d" "Done" (some "A") (some 10) [],
     JiraTicket.mk "P2" "t" "To Do" (some "B") (some 5) []]
    [10, 20, 10, 20] 5 6 (by decide) (by norm_num) hvar
  exact ⟨h.1, h.2.1⟩

/-- Helper: a ticket replacement that preserves sizes and statuses
preserves the total and completed point sums. -/
lemma points_map_invariant (g : JiraTicket → JiraTicket)
    (hp : ∀ t, (g t).story_points = t.story_points)
    (hs : ∀ t, (g t).status = t.status) (l : List JiraTicket) :
    totalPoints (l.map g) = totalPoints l ∧ completedPoints (l.map g) = completedPoints l := by
  constructor
  · unfold totalPoints
    rw [List.map_map]
    have hfun : ((fun t => t.story_points.getD 0) ∘ g) = fun t : JiraTicket => t.story_points.getD 0 :=
      funext (fun t => by simp [Function.comp, hp])
    rw [hfun]
  · induction l with
    | nil => rfl
    | cons a l ih =>
      have hda : (g a).is_done = a.is_done := by
        unfold JiraTicket.is_done
        rw [hs]
      simp only [List.map_cons, completedPoints, List.filter_cons, hda] at *
      cases hcase : a.is_done <;> simp_all [hp a]

/-- C4: removing a person by the what-if scenario never raises the
completion probability above the original prediction computed from the
same inputs (in the embedded code both probabilities are in fact equal,
because the replacement tickets keep their statuses and sizes). -/
theorem claim4_remove_person_monotone (sprint : Sprint) (tickets : List JiraTicket)
    (velocity_history : List ℚ) (sd : ℚ) (now : ℤ) (person_name : String)
    (howner : ∃ t ∈ tickets, nameMatches person_name t = true ∧ t.is_done = false
      ∧ 0 < t.story_points.getD 0) :
    (what_if_remove_person (predict sprint tickets velocity_history sd now) person_name
      tickets sprint velocity_history sd now).modified_prediction.completion_probability
      ≤ (predict sprint tickets velocity_history sd now).completion_probability := by
  have hmod : (what_if_remove_person (predict sprint tickets velocity_history sd now) person_name
      tickets sprint velocity_history sd now).modified_prediction
      = predict sprint
          (tickets.map (removePersonModify (tickets.filter (fun t => nameMatches person_name t))))
          velocity_history sd now := rfl
  have hp : ∀ t, (removePersonModify (tickets.filter (fun t => nameMatches person_name t))
      t).story_points = t.story_points := by
    intro t
    unfold removePersonModify
    split_ifs <;> rfl
  have hst : ∀ t, (removePersonModify (tickets.filter (fun t => nameMatches person_name t))
      t).status = t.status := by
    intro t
    unfold removePersonModify
    split_ifs <;> rfl
  obtain ⟨h1, h2⟩ := points_map_invariant _ hp hst tickets
  have heq : (predict sprint
      (tickets.map (removePersonModify (tickets.filter (fun t => nameMatches person_name t))))
      velocity_history sd now).completion_probability
      = (predict sprint tickets velocity_history sd now).completion_probability := by
    rw [predict_probability_def, predict_probability_def]
    simp only [predictCore]
    rw [h1, h2]
  rw [hmod, heq]

/-- C4 witness: removing the person named alice, who owns an in-progress
five-point ticket. -/
theorem claim4_remove_person_monotone_witness :
    (what_if_remove_person
      (predict (Sprint.mk 1 "S" "active" (some 0) (some 10))
        [JiraTicket.mk "P1" "d" "Done" (some "Alice") (some 5) [],
         JiraTicket.mk "P2" "w" "In Progress" (some "Alice") (some 5) [],
         JiraTicket.mk "P3" "t" "To Do" (some "Bob") (some 5) []] [] 0 5)
      "alice"
      [JiraTicket.mk "P1" "d" "Done" (some "Alice") (some 5) [],
       JiraTicket.mk "P2" "w" "In Progress" (some "Alice") (some 5) [],
       JiraTicket.mk "P3" "t" "To Do" (some "Bob") (some 5) []]
      (Sprint.mk 1 "S" "active" (some 0) (some 10))
      [] 0 5).modified_prediction.completion_probability
      ≤ (predict (Sprint.mk 1 "S" "active" (some 0) (some 10))
        [JiraTicket.mk "P1" "d" "Done" (some "Alice") (some 5) [],
         JiraTicket.mk "P2" "w" "In Progress" (some "Alice") (some 5) [],
         JiraTicket.mk "P3" "t" "To Do" (some "Bob") (some 5) []] [] 0 5).completion_probability :=
  claim4_remove_person_monotone (Sprint.mk 1 "S" "active" (some 0) (some 10))
    [JiraTicket.mk "P1" "d" "Done" (some "Alice") (some 5) [],
     JiraTicket.mk "P2" "w" "In Progress" (some "Alice") (some 5) [],
     JiraTicket.mk "P3" "t" "To Do" (some "Bob") (some 5) []]
    [] 0 5 "alice"
    ⟨JiraTicket.mk "P2" "w" "In Progress" (some "Alice") (some 5) [],
      by simp, by decide, by decide, by norm_num⟩
